import Mathlib

/-!
# Verification of the SIWE-ui authentication session controller

Shallow embedding of `src/contexts/AuthContext.tsx` (the full variant with
profile management, `src/unnamed/part_000`) and of the client-side form
validation in `src/components/WalletAuth.tsx` (`handleFormSubmit`).

Modelling choices:
* Each controller operation (`authenticate`, `logout`, `checkAuthStatus`,
  `fetchUserData`, `createOrUpdateProfile`, `deleteProfile`) becomes a pure
  function `Env → SessionState → OpResult`.
* `Env` is an oracle fixing the outcome of every external interaction of one
  run: the connected wallet address, the result of each `fetch` call, and the
  result of `signMessageAsync`.  A `fetch` outcome is `Except String _`:
  `.error e` models a rejected promise (network failure, message `e`);
  `.ok response` models a resolved response carrying its `ok` flag and, where
  the code parses a body, the result of `response.json()` / `response.text()`
  (again `Except String _`, since parsing can throw).
* `OpResult` records the React state after the call (the four `useState`
  cells), the list of network requests issued during the call, the
  `console.error` logs emitted, and `thrown` — the exception propagated to the
  caller (`none` when the function returns normally).
-/

/-- The `Profile` record from `AuthContext.tsx` (optional fields `name?`, `email?`,
`avatar?` become `Option String`). -/
structure Profile where
  name : Option String
  email : Option String
  avatar : Option String
  createdAt : String
  updatedAt : String
deriving Repr, DecidableEq

/-- The `User` record from `AuthContext.tsx`. -/
structure User where
  id : String
  walletAddress : String
  createdAt : String
  updatedAt : String
deriving Repr, DecidableEq

/-- The `UserData` composite from `AuthContext.tsx`: `{ user: User; profile: Profile | null }`. -/
structure UserData where
  user : User
  profile : Option Profile
deriving Repr, DecidableEq

/-- The four `useState` cells of `AuthProvider`:
`isAuthenticated`, `isLoading`, `error`, `userData`. -/
structure SessionState where
  isAuthenticated : Bool
  isLoading : Bool
  error : Option String
  userData : Option UserData
deriving Repr, DecidableEq

/-- Body of a `/auth/verify` response: `{ success: bool }`. -/
structure VerifyResult where
  success : Bool
deriving Repr, DecidableEq

/-- Body of a `/auth/status` response: `{ authenticated: bool }`. -/
structure StatusResult where
  authenticated : Bool
deriving Repr, DecidableEq

/-- A resolved `fetch` response whose body is never read by the code:
only the `ok` flag matters (`/auth/logout`, `POST` and `DELETE /a/profile`). -/
structure RawResponse where
  ok : Bool
deriving Repr, DecidableEq

/-- A resolved `fetch` response whose body the code parses: `ok` flag plus the
result of `response.json()` (or `response.text()`), which can itself throw. -/
structure HttpResponse (β : Type) where
  ok : Bool
  body : Except String β

/-- The partial profile object built by `handleFormSubmit`
(`Partial<ProfileFormData>`: only non-empty trimmed fields are present). -/
structure ProfilePayload where
  name : Option String
  email : Option String
  avatar : Option String
deriving Repr, DecidableEq, BEq

/-- One network request issued by the controller, tagged by endpoint; the
`verify` and `profilePost` requests also record the body that was sent. -/
inductive Request where
  | nonce
  | verify (message : String) (signature : String)
  | status
  | logoutReq
  | profileGet
  | profilePost (payload : ProfilePayload)
  | profileDelete
deriving Repr, DecidableEq, BEq

/-- Oracle for one run: the wallet state and the outcome of each external
call the controller can make. -/
structure Env where
  /-- Field `address` from `useAccount()` (`none` = no wallet connected). -/
  address : Option String
  /-- Outcome of `fetch(API/auth/nonce)`; body is `response.text()`. -/
  nonceRes : Except String (HttpResponse String)
  /-- Outcome of `signMessageAsync({ message })`: signature or rejection. -/
  signRes : Except String String
  /-- Outcome of `fetch(API/auth/verify)`; body is `response.json()`. -/
  verifyRes : Except String (HttpResponse VerifyResult)
  /-- Outcome of `fetch(API/auth/status)`; body is `response.json()`. -/
  statusRes : Except String (HttpResponse StatusResult)
  /-- Outcome of `GET fetch(API/a/profile)`; body is `response.json()`. -/
  profileGetRes : Except String (HttpResponse UserData)
  /-- Outcome of `POST fetch(API/a/profile)`; body never read. -/
  profilePostRes : Except String RawResponse
  /-- Outcome of `DELETE fetch(API/a/profile)`; body never read. -/
  profileDeleteRes : Except String RawResponse
  /-- Outcome of `fetch(API/auth/logout)`; body never read. -/
  logoutRes : Except String RawResponse

/-- Result of one controller-operation run: final React state, network
requests issued, `console.error` logs, and the exception propagated to the
caller (`none` = returned normally). -/
structure OpResult where
  state : SessionState
  requests : List Request
  logs : List String
  thrown : Option String
deriving Repr, DecidableEq

/-- Modelled from the spec: `createSiweMessage` of the external `viem/siwe`
library, out of scope per the spec ("produced by a trusted external library,
not reimplemented"); §6 fixes only that the message embeds address, chain id,
domain, URI, version and nonce, which we render deterministically (the
real library also adds a timestamp, irrelevant to every claim). -/
def createSiweMessage (address : String) (chainId : Nat) (domain : String)
    (nonce : String) (uri : String) (version : String) : String :=
  domain ++ " wants you to sign in with your Ethereum account:\n" ++ address ++
    "\n\nURI: " ++ uri ++ "\nVersion: " ++ version ++
    "\nChain ID: " ++ toString chainId ++ "\nNonce: " ++ nonce

/-- Embedding of `getNonce` (AuthContext lines 66-76): fetch the nonce endpoint; a rejected
fetch propagates, a non-2xx response throws `Failed to get nonce`, otherwise
the result of `response.text()` is returned (its rejection also propagates). -/
def getNonce (env : Env) : Except String String :=
  match env.nonceRes with
  | .error e => .error e
  | .ok response => if response.ok then response.body else .error "Failed to get nonce"

/-- Embedding of `fetchUserData` (AuthContext lines 172-189): `GET /a/profile`; on `ok`,
parse the body into `userData`; on a non-2xx response or any thrown error
(rejected fetch or body parse), log and set `userData` to `null`.  The
try/catch swallows everything, so `thrown = none` in every branch, and no
other state cell is touched. -/
def fetchUserData (env : Env) (s : SessionState) : OpResult :=
  match env.profileGetRes with
  | .error e =>
      ⟨{ s with userData := none }, [.profileGet], ["Error fetching user data: " ++ e], none⟩
  | .ok response =>
      if response.ok then
        match response.body with
        | .ok data => ⟨{ s with userData := some data }, [.profileGet], [], none⟩
        | .error e =>
            ⟨{ s with userData := none }, [.profileGet], ["Error fetching user data: " ++ e], none⟩
      else
        ⟨{ s with userData := none }, [.profileGet], ["Failed to fetch user data"], none⟩

/-- Embedding of `authenticate` (AuthContext lines 78-128).  Precondition check first
(`throw 'Wallet not connected'` before any state write or request); then
`isLoading := true`, `error := null`; then the four sequential steps, any
failure being caught into `error` (never rethrown) and `finally` clearing
`isLoading`; on verify success, `isAuthenticated := true` and then a
best-effort `fetchUserData`. -/
def authenticate (env : Env) (s : SessionState) : OpResult :=
  match env.address with
  | none => ⟨s, [], [], some "Wallet not connected"⟩
  | some address =>
    let s1 : SessionState := { s with isLoading := true, error := none }
    match getNonce env with
    | .error e => ⟨{ s1 with error := some e, isLoading := false }, [.nonce], [], none⟩
    | .ok nonce =>
      let message := createSiweMessage address 1 "siwe-siwe-auth.pkf1mn.easypanel.host"
        nonce "https://siwe-siwe-auth.pkf1mn.easypanel.host" "1"
      match env.signRes with
      | .error e => ⟨{ s1 with error := some e, isLoading := false }, [.nonce], [], none⟩
      | .ok signature =>
        match env.verifyRes with
        | .error e =>
            ⟨{ s1 with error := some e, isLoading := false },
              [.nonce, .verify message signature], [], none⟩
        | .ok authResponse =>
            if authResponse.ok then
              match authResponse.body with
              | .error e =>
                  ⟨{ s1 with error := some e, isLoading := false },
                    [.nonce, .verify message signature], [], none⟩
              | .ok result =>
                  if result.success then
                    let r := fetchUserData env { s1 with isAuthenticated := true }
                    ⟨{ r.state with isLoading := false },
                      [.nonce, .verify message signature] ++ r.requests, r.logs, none⟩
                  else
                    ⟨{ s1 with
                        error := some "Authentication verification failed"
                        isLoading := false },
                      [.nonce, .verify message signature], [], none⟩
            else
              ⟨{ s1 with error := some "Authentication failed", isLoading := false },
                [.nonce, .verify message signature], [], none⟩

/-- Embedding of `logout` (AuthContext lines 130-147): `isLoading := true`, `error := null`,
then `POST /auth/logout`.  The response's `ok` flag is never inspected: any
resolved response (2xx or not) falls through to the two clearing writes; a
rejected fetch jumps to `catch`, which only records the error message, so the
clearing writes are skipped.  `finally` clears `isLoading`. -/
def logout (env : Env) (s : SessionState) : OpResult :=
  let s1 : SessionState := { s with isLoading := true, error := none }
  match env.logoutRes with
  | .error e =>
      ⟨{ s1 with error := some e, isLoading := false }, [.logoutReq], [], none⟩
  | .ok _response =>
      ⟨{ s1 with isAuthenticated := false, userData := none, isLoading := false },
        [.logoutReq], [], none⟩

/-- Embedding of `checkAuthStatus` (AuthContext lines 149-170): `GET /auth/status`; on a
2xx response with a parseable body, `isAuthenticated := authenticated` and, if
true, `fetchUserData`; on a non-2xx response, or a rejected fetch / body-parse
throw (the `catch`, which also logs), `isAuthenticated := false` and
`userData := null`.  Never throws into the caller. -/
def checkAuthStatus (env : Env) (s : SessionState) : OpResult :=
  match env.statusRes with
  | .error e =>
      ⟨{ s with isAuthenticated := false, userData := none }, [.status],
        ["Failed to check auth status: " ++ e], none⟩
  | .ok statusResponse =>
      if statusResponse.ok then
        match statusResponse.body with
        | .error e =>
            ⟨{ s with isAuthenticated := false, userData := none }, [.status],
              ["Failed to check auth status: " ++ e], none⟩
        | .ok st =>
            if st.authenticated then
              let r := fetchUserData env { s with isAuthenticated := true }
              ⟨r.state, .status :: r.requests, r.logs, none⟩
            else
              ⟨{ s with isAuthenticated := false }, [.status], [], none⟩
      else
        ⟨{ s with isAuthenticated := false, userData := none }, [.status], [], none⟩

/-- The wallet-change effect (AuthContext lines 56-64): runs on mount and
whenever `isConnected` or `address` changes; if connected with an address it
calls `checkAuthStatus()` (with no prior reset), otherwise it resets
`isAuthenticated := false` and `userData := null`. -/
def walletEffect (env : Env) (isConnected : Bool) (address : Option String)
    (s : SessionState) : OpResult :=
  if isConnected && address.isSome then
    checkAuthStatus env s
  else
    ⟨{ s with isAuthenticated := false, userData := none }, [], [], none⟩

/-- Embedding of `createOrUpdateProfile` (AuthContext lines 191-214): `isLoading := true`,
`error := null`, `POST /a/profile` with the payload; on `ok`, refresh via
`fetchUserData`; on a non-2xx response throw `Failed to update profile`; the
`catch` records the message in `error` and RETHROWS (`throw err`); `finally`
clears `isLoading`. -/
def createOrUpdateProfile (env : Env) (profileData : ProfilePayload)
    (s : SessionState) : OpResult :=
  let s1 : SessionState := { s with isLoading := true, error := none }
  match env.profilePostRes with
  | .error e =>
      ⟨{ s1 with error := some e, isLoading := false },
        [.profilePost profileData], [], some e⟩
  | .ok response =>
      if response.ok then
        let r := fetchUserData env s1
        ⟨{ r.state with isLoading := false }, .profilePost profileData :: r.requests,
          r.logs, none⟩
      else
        ⟨{ s1 with error := some "Failed to update profile", isLoading := false },
          [.profilePost profileData], [], some "Failed to update profile"⟩

/-- Embedding of `deleteProfile` (AuthContext lines 216-237): same shape as
`createOrUpdateProfile` with `DELETE /a/profile` and the messages
`Failed to delete profile` / rethrow. -/
def deleteProfile (env : Env) (s : SessionState) : OpResult :=
  let s1 : SessionState := { s with isLoading := true, error := none }
  match env.profileDeleteRes with
  | .error e =>
      ⟨{ s1 with error := some e, isLoading := false }, [.profileDelete], [], some e⟩
  | .ok response =>
      if response.ok then
        let r := fetchUserData env s1
        ⟨{ r.state with isLoading := false }, .profileDelete :: r.requests, r.logs, none⟩
      else
        ⟨{ s1 with error := some "Failed to delete profile", isLoading := false },
          [.profileDelete], [], some "Failed to delete profile"⟩

/-!
## Form validation (`src/components/WalletAuth.tsx`, `handleFormSubmit`)
-/

/-- The three text inputs of the profile form (`ProfileFormData`). -/
structure ProfileFormData where
  name : String
  email : String
  avatar : String
deriving Repr, DecidableEq

/-- Embedding of JS `String.prototype.trim` as used by `handleFormSubmit`
(`field.trim()`): drop whitespace from both ends.  Implemented over the
character list so that it evaluates by kernel reduction. -/
def jsTrim (s : String) : String :=
  String.mk (((s.data.dropWhile Char.isWhitespace).reverse.dropWhile
    Char.isWhitespace).reverse)

/-- A character admissible inside each regex atom `[^\s@]`: neither
whitespace nor `@`. -/
def isAtomChar (c : Char) : Bool :=
  !c.isWhitespace && c != '@'

/-- Embedding of the anchored test `/^[^\s@]+@[^\s@]+\.[^\s@]+$/.test(s)`.
A string matches iff it splits as `A ++ "@" ++ D` where `A` is a non-empty run
of `[^\s@]` characters (hence `A` is exactly the maximal `@`-free prefix and
the split point is the first `@`), `D` contains no whitespace and no `@`, and
`D` splits as `B ++ "." ++ C` with `B`, `C` non-empty — i.e. some character of
`D` other than its first and last is a dot. -/
def emailRegexAccepts (s : String) : Bool :=
  let cs := s.toList
  let localPart := cs.takeWhile (fun c => c != '@')
  match cs.drop localPart.length with
  | '@' :: domainPart =>
      !localPart.isEmpty && localPart.all isAtomChar &&
        domainPart.all isAtomChar && ((domainPart.drop 1).dropLast.contains '.')
  | _ => false

/-- Embedding of the case-insensitive anchored test
`/^https?:\/\/.+\.(jpg|jpeg|png|gif|webp|svg)$/i.test(s)`: after lowercasing,
the string starts with `http://` or `https://`; the remainder ends in a dot
followed by one of the listed extensions, with at least one character (regex
`.`, which excludes newlines) between the scheme and that final `.ext`. -/
def avatarRegexAccepts (s : String) : Bool :=
  let l := s.toList.map Char.toLower
  let schemeRest : Option (List Char) :=
    if l.take 8 = "https://".toList then some (l.drop 8)
    else if l.take 7 = "http://".toList then some (l.drop 7)
    else none
  match schemeRest with
  | none => false
  | some rest =>
      [".jpg", ".jpeg", ".png", ".gif", ".webp", ".svg"].any (fun ext =>
        let e := ext.toList
        decide (e.length + 1 ≤ rest.length) &&
          decide (rest.drop (rest.length - e.length) = e) &&
          (rest.take (rest.length - e.length)).all (fun c => c != '\n'))

/-- Result of one `handleFormSubmit` run: either a client-side validation
rejection (an `alert` message, before any controller call), or a call into
`createOrUpdateProfile` with the assembled partial payload.  (The UI
bookkeeping after the call — closing the form, logging a rejected mutation —
is not part of any claim and is omitted.) -/
inductive FormResult where
  | validationError (msg : String)
  | submitted (payload : ProfilePayload) (r : OpResult)
deriving Repr, DecidableEq

/-- Network requests issued during a `handleFormSubmit` run: none on a
validation rejection, those of the controller call otherwise. -/
def FormResult.requests : FormResult → List Request
  | .validationError _ => []
  | .submitted _ r => r.requests

/-- Embedding of `handleFormSubmit` (WalletAuth lines 50-84): reject when all three
trimmed fields are empty; reject a non-empty trimmed email failing the email
regex; reject a non-empty trimmed avatar failing the image-URL regex;
otherwise build the payload from the non-empty trimmed fields only and call
`createOrUpdateProfile`. -/
def handleFormSubmit (env : Env) (form : ProfileFormData) (s : SessionState) :
    FormResult :=
  if (jsTrim form.name).isEmpty && (jsTrim form.email).isEmpty && (jsTrim form.avatar).isEmpty then
    .validationError "Please fill in at least one field"
  else if !(jsTrim form.email).isEmpty && !emailRegexAccepts (jsTrim form.email) then
    .validationError "Please enter a valid email address"
  else if !(jsTrim form.avatar).isEmpty && !avatarRegexAccepts (jsTrim form.avatar) then
    .validationError "Please enter a valid image URL (jpg, jpeg, png, gif, webp, svg)"
  else
    let profileData : ProfilePayload :=
      { name := if !(jsTrim form.name).isEmpty then some (jsTrim form.name) else none
        email := if !(jsTrim form.email).isEmpty then some (jsTrim form.email) else none
        avatar := if !(jsTrim form.avatar).isEmpty then some (jsTrim form.avatar) else none }
    .submitted profileData (createOrUpdateProfile env profileData s)

/-!
## Shared fixtures and helper lemmas
-/

/-- A concrete server-side user record, for witnesses and counterexamples. -/
def user0 : User :=
  { id := "u1", walletAddress := "0xabc", createdAt := "2024-01-01", updatedAt := "2024-01-02" }

/-- A concrete `UserData` value (user with no profile). -/
def userData0 : UserData := { user := user0, profile := none }

/-- Fresh session state: unauthenticated, idle, no error, no data. -/
def s0 : SessionState :=
  { isAuthenticated := false, isLoading := false, error := none, userData := none }

/-- An authenticated session holding user data. -/
def sAuth : SessionState :=
  { isAuthenticated := true, isLoading := false, error := none, userData := some userData0 }

/-- Baseline oracle where every external call succeeds. -/
def envBase : Env :=
  { address := some "0xabc"
    nonceRes := .ok ⟨true, .ok "nonce123"⟩
    signRes := .ok "0xsig"
    verifyRes := .ok ⟨true, .ok ⟨true⟩⟩
    statusRes := .ok ⟨true, .ok ⟨true⟩⟩
    profileGetRes := .ok ⟨true, .ok userData0⟩
    profilePostRes := .ok ⟨true⟩
    profileDeleteRes := .ok ⟨true⟩
    logoutRes := .ok ⟨true⟩ }

/-- The three failure modes of the `GET /a/profile` fetch: rejected promise,
non-2xx response, or 2xx with a malformed (unparseable) body. -/
def profileFetchFails (env : Env) : Prop :=
  (∃ e, env.profileGetRes = .error e) ∨
  (∃ r, env.profileGetRes = .ok r ∧ r.ok = false) ∨
  (∃ r e, env.profileGetRes = .ok r ∧ r.ok = true ∧ r.body = .error e)

lemma fetchUserData_isAuthenticated (env : Env) (s : SessionState) :
    (fetchUserData env s).state.isAuthenticated = s.isAuthenticated := by
  rcases hg : env.profileGetRes with e | r
  · simp [fetchUserData, hg]
  · rcases hb : r.body with e | d <;> rcases hok : r.ok <;> simp [fetchUserData, hg, hok, hb]

lemma fetchUserData_isLoading (env : Env) (s : SessionState) :
    (fetchUserData env s).state.isLoading = s.isLoading := by
  rcases hg : env.profileGetRes with e | r
  · simp [fetchUserData, hg]
  · rcases hb : r.body with e | d <;> rcases hok : r.ok <;> simp [fetchUserData, hg, hok, hb]

lemma fetchUserData_error (env : Env) (s : SessionState) :
    (fetchUserData env s).state.error = s.error := by
  rcases hg : env.profileGetRes with e | r
  · simp [fetchUserData, hg]
  · rcases hb : r.body with e | d <;> rcases hok : r.ok <;> simp [fetchUserData, hg, hok, hb]

lemma fetchUserData_thrown (env : Env) (s : SessionState) :
    (fetchUserData env s).thrown = none := by
  rcases hg : env.profileGetRes with e | r
  · simp [fetchUserData, hg]
  · rcases hb : r.body with e | d <;> rcases hok : r.ok <;> simp [fetchUserData, hg, hok, hb]

lemma fetchUserData_requests (env : Env) (s : SessionState) :
    (fetchUserData env s).requests = [.profileGet] := by
  rcases hg : env.profileGetRes with e | r
  · simp [fetchUserData, hg]
  · rcases hb : r.body with e | d <;> rcases hok : r.ok <;> simp [fetchUserData, hg, hok, hb]

lemma fetchUserData_userData_of_fails (env : Env) (s : SessionState)
    (h : profileFetchFails env) : (fetchUserData env s).state.userData = none := by
  rcases h with ⟨e, he⟩ | ⟨r, hr, hok⟩ | ⟨r, e, hr, hok, hb⟩
  · simp [fetchUserData, he]
  · simp [fetchUserData, hr, hok]
  · simp [fetchUserData, hr, hok, hb]

lemma fetchUserData_logs_of_fails (env : Env) (s : SessionState)
    (h : profileFetchFails env) : (fetchUserData env s).logs ≠ [] := by
  rcases h with ⟨e, he⟩ | ⟨r, hr, hok⟩ | ⟨r, e, hr, hok, hb⟩
  · simp [fetchUserData, he]
  · simp [fetchUserData, hr, hok]
  · simp [fetchUserData, hr, hok, hb]

/-!
## Claims
-/

/-- C6: whenever `authenticate()` is called while no wallet address is
available, it fails with the precondition error `Wallet not connected` before
any network request (nonce, verify, or otherwise) is issued. -/
theorem claim_C6_authenticate_precondition (env : Env) (s : SessionState)
    (h : env.address = none) :
    (authenticate env s).thrown = some "Wallet not connected" ∧
    (authenticate env s).requests = [] := by
  simp [authenticate, h]

/-- Witness for C6 at a concrete oracle with no wallet address. -/
def envNoWallet : Env := { envBase with address := none }

theorem claim_C6_witness :
    (authenticate envNoWallet s0).thrown = some "Wallet not connected" ∧
    (authenticate envNoWallet s0).requests = [] :=
  claim_C6_authenticate_precondition envNoWallet s0 rfl

/-- C10: when `authenticate()` is called with no wallet address, the thrown
precondition error propagates to the caller while the whole session state is
left unchanged (`isLoading` not set, `error` not written, `isAuthenticated`
and `userData` keep their prior values). -/
theorem claim_C10_authenticate_precondition_frame (env : Env) (s : SessionState)
    (h : env.address = none) :
    (authenticate env s).thrown = some "Wallet not connected" ∧
    (authenticate env s).state = s := by
  simp [authenticate, h]

theorem claim_C10_witness :
    (authenticate envNoWallet sAuth).thrown = some "Wallet not connected" ∧
    (authenticate envNoWallet sAuth).state = sAuth :=
  claim_C10_authenticate_precondition_frame envNoWallet sAuth rfl

/-- C8: for every failure mode of `fetchUserData()` (rejected fetch, non-2xx
response, or malformed body) the operation sets `userData` to `null`, logs a
diagnostic, returns normally (never throws into its caller), and never writes
the shared `error` field. -/
theorem claim_C8_fetchUserData_failures (env : Env) (s : SessionState)
    (h : profileFetchFails env) :
    (fetchUserData env s).state.userData = none ∧
    (fetchUserData env s).logs ≠ [] ∧
    (fetchUserData env s).thrown = none ∧
    (fetchUserData env s).state.error = s.error :=
  ⟨fetchUserData_userData_of_fails env s h, fetchUserData_logs_of_fails env s h,
    fetchUserData_thrown env s, fetchUserData_error env s⟩

/-- Oracle whose `GET /a/profile` fetch rejects. -/
def envProfileGetFails : Env := { envBase with profileGetRes := .error "Failed to fetch" }

theorem claim_C8_witness :
    (fetchUserData envProfileGetFails sAuth).state.userData = none ∧
    (fetchUserData envProfileGetFails sAuth).logs ≠ [] ∧
    (fetchUserData envProfileGetFails sAuth).thrown = none ∧
    (fetchUserData envProfileGetFails sAuth).state.error = sAuth.error :=
  claim_C8_fetchUserData_failures envProfileGetFails sAuth
    (Or.inl ⟨"Failed to fetch", rfl⟩)

/-- Counterexample to C1: when the logout fetch rejects (thrown network
error), the clearing writes inside the `try` are skipped, so a previously
authenticated session stays authenticated and keeps its `userData` — the
claim's "for every outcome ... or a rejected/thrown fetch" is false. -/
def envLogoutThrows : Env := { envBase with logoutRes := .error "Failed to fetch" }

theorem claim_C1_counterexample :
    (logout envLogoutThrows sAuth).state.isAuthenticated = true ∧
    (logout envLogoutThrows sAuth).state.userData = some userData0 :=
  ⟨rfl, rfl⟩

/-- C1 (amended): on any resolved logout response (2xx or non-2xx alike, the
`ok` flag is never inspected) `logout()` clears `isAuthenticated` and
`userData`; on a rejected/thrown fetch it instead records the error message
and leaves `isAuthenticated` and `userData` unchanged; `isLoading` is cleared
in every case. -/
theorem claim_C1_logout (env : Env) (s : SessionState) :
    (∀ r, env.logoutRes = .ok r →
      (logout env s).state.isAuthenticated = false ∧
      (logout env s).state.userData = none) ∧
    (∀ e, env.logoutRes = .error e →
      (logout env s).state.isAuthenticated = s.isAuthenticated ∧
      (logout env s).state.userData = s.userData ∧
      (logout env s).state.error = some e) ∧
    (logout env s).state.isLoading = false := by
  refine ⟨?_, ?_, ?_⟩
  · intro r hr
    simp [logout, hr]
  · intro e he
    simp [logout, he]
  · rcases hl : env.logoutRes with e | r <;> simp [logout, hl]

/-- Witness for C1 (amended): a non-2xx logout response still clears the
local session. -/
def envLogout500 : Env := { envBase with logoutRes := .ok ⟨false⟩ }

theorem claim_C1_witness :
    (logout envLogout500 sAuth).state.isAuthenticated = false ∧
    (logout envLogout500 sAuth).state.userData = none :=
  (claim_C1_logout envLogout500 sAuth).1 ⟨false⟩ rfl

/-- Counterexample to C7: an address-change event while still connected does
NOT reset the session — the effect goes straight to `checkAuthStatus`, and
when the server still honours the session cookie the state stays
authenticated with `userData` populated. -/
theorem claim_C7_counterexample :
    (walletEffect envBase true (some "0xNEWADDRESS") sAuth).state.isAuthenticated = true ∧
    (walletEffect envBase true (some "0xNEWADDRESS") sAuth).state.userData = some userData0 :=
  ⟨rfl, rfl⟩

/-- C7 (amended): on every wallet-disconnect event (`isConnected = false` or
no address) the session is reset — `isAuthenticated := false`,
`userData := null` — with no network request; on an address-change event
while connected, the effect instead just runs `checkAuthStatus` on the prior
state, with no reset beforehand. -/
theorem claim_C7_wallet_effect (env : Env) (isConnected : Bool)
    (address : Option String) (s : SessionState) :
    ((isConnected = false ∨ address = none) →
      (walletEffect env isConnected address s).state.isAuthenticated = false ∧
      (walletEffect env isConnected address s).state.userData = none ∧
      (walletEffect env isConnected address s).requests = []) ∧
    (∀ a, isConnected = true → address = some a →
      walletEffect env isConnected address s = checkAuthStatus env s) := by
  constructor
  · rintro (h | h) <;> simp [walletEffect, h]
  · intro a h1 h2
    simp [walletEffect, h1, h2]

theorem claim_C7_witness :
    (walletEffect envBase false none sAuth).state.isAuthenticated = false ∧
    (walletEffect envBase false none sAuth).state.userData = none ∧
    (walletEffect envBase false none sAuth).requests = [] :=
  (claim_C7_wallet_effect envBase false none sAuth).1 (Or.inl rfl)

/-- C5: `checkAuthStatus()` sets `isAuthenticated` to the boolean the server
returns when the status request succeeds (and triggers the `/a/profile` fetch
when that boolean is true); on a non-2xx response or a thrown network error it
sets `isAuthenticated` to `false` (fail-closed); and it never raises to the
caller. -/
theorem claim_C5_checkAuthStatus (env : Env) (s : SessionState) :
    (∀ r b, env.statusRes = .ok r → r.ok = true → r.body = .ok ⟨b⟩ →
      (checkAuthStatus env s).state.isAuthenticated = b ∧
      (b = true → Request.profileGet ∈ (checkAuthStatus env s).requests)) ∧
    (((∃ e, env.statusRes = .error e) ∨ (∃ r, env.statusRes = .ok r ∧ r.ok = false)) →
      (checkAuthStatus env s).state.isAuthenticated = false) ∧
    (checkAuthStatus env s).thrown = none := by
  refine ⟨?_, ?_, ?_⟩
  · intro r b hr hok hb
    cases b
    · simp [checkAuthStatus, hr, hok, hb]
    · have h1 := fetchUserData_isAuthenticated env { s with isAuthenticated := true }
      have h2 := fetchUserData_requests env { s with isAuthenticated := true }
      simp [checkAuthStatus, hr, hok, hb, h1, h2]
  · rintro (⟨e, he⟩ | ⟨r, hr, hok⟩)
    · simp [checkAuthStatus, he]
    · simp [checkAuthStatus, hr, hok]
  · rcases hs : env.statusRes with e | r
    · simp [checkAuthStatus, hs]
    · rcases hb : r.body with e | st
      · rcases hok : r.ok <;> simp [checkAuthStatus, hs, hok, hb]
      · rcases hok : r.ok
        · simp [checkAuthStatus, hs, hok]
        · rcases ha : st.authenticated <;>
            simp [checkAuthStatus, hs, hok, hb, ha, fetchUserData_thrown]
theorem claim_C5_witness :
    (checkAuthStatus envBase s0).state.isAuthenticated = true ∧
    Request.profileGet ∈ (checkAuthStatus envBase s0).requests ∧
    (checkAuthStatus envBase s0).thrown = none := by
  have h := claim_C5_checkAuthStatus envBase s0
  have h1 := h.1 ⟨true, .ok ⟨true⟩⟩ true rfl rfl rfl
  exact ⟨h1.1, h1.2 rfl, h.2.2⟩

/-- The failure modes of the `POST /a/profile` mutation: rejected fetch or
non-2xx response. -/
def profilePostFails (env : Env) : Prop :=
  (∃ e, env.profilePostRes = .error e) ∨ (∃ r, env.profilePostRes = .ok r ∧ r.ok = false)

/-- The failure modes of the `DELETE /a/profile` mutation: rejected fetch or
non-2xx response. -/
def profileDeleteFails (env : Env) : Prop :=
  (∃ e, env.profileDeleteRes = .error e) ∨ (∃ r, env.profileDeleteRes = .ok r ∧ r.ok = false)

/-- C9: for both profile mutations, a 2xx response triggers the `/a/profile`
refresh fetch (and the call returns normally), while any failure (non-2xx or
thrown network error) sets the `error` field and re-raises to the caller. -/
theorem claim_C9_profile_mutations (env : Env) (payload : ProfilePayload)
    (s : SessionState) :
    ((∀ r, env.profilePostRes = .ok r → r.ok = true →
        Request.profileGet ∈ (createOrUpdateProfile env payload s).requests ∧
        (createOrUpdateProfile env payload s).thrown = none) ∧
      (profilePostFails env →
        (createOrUpdateProfile env payload s).state.error ≠ none ∧
        (createOrUpdateProfile env payload s).thrown ≠ none)) ∧
    ((∀ r, env.profileDeleteRes = .ok r → r.ok = true →
        Request.profileGet ∈ (deleteProfile env s).requests ∧
        (deleteProfile env s).thrown = none) ∧
      (profileDeleteFails env →
        (deleteProfile env s).state.error ≠ none ∧
        (deleteProfile env s).thrown ≠ none)) := by
  refine ⟨⟨?_, ?_⟩, ⟨?_, ?_⟩⟩
  · intro r hr hok
    simp [createOrUpdateProfile, hr, hok, fetchUserData_requests]
  · rintro (⟨e, he⟩ | ⟨r, hr, hok⟩)
    · simp [createOrUpdateProfile, he]
    · simp [createOrUpdateProfile, hr, hok]
  · intro r hr hok
    simp [deleteProfile, hr, hok, fetchUserData_requests]
  · rintro (⟨e, he⟩ | ⟨r, hr, hok⟩)
    · simp [deleteProfile, he]
    · simp [deleteProfile, hr, hok]

/-- An all-empty partial payload (no field transmitted). -/
def payload0 : ProfilePayload := { name := none, email := none, avatar := none }

theorem claim_C9_witness :
    Request.profileGet ∈ (createOrUpdateProfile envBase payload0 sAuth).requests ∧
    (createOrUpdateProfile envBase payload0 sAuth).thrown = none :=
  (claim_C9_profile_mutations envBase payload0 sAuth).1.1 ⟨true⟩ rfl rfl

/-- C2: an input whose fields are all empty after trimming, and an input whose
(non-empty) email does not match the email format, are both rejected
client-side by the form's validation with an `alert` before
`createOrUpdateProfile` is ever called, so no network request is issued. -/
theorem claim_C2_client_validation (env : Env) (form : ProfileFormData)
    (s : SessionState)
    (h : ((jsTrim form.name).isEmpty && (jsTrim form.email).isEmpty &&
            (jsTrim form.avatar).isEmpty) = true
       ∨ ((jsTrim form.email).isEmpty = false ∧
            emailRegexAccepts (jsTrim form.email) = false)) :
    (∃ msg, handleFormSubmit env form s = .validationError msg) ∧
    (handleFormSubmit env form s).requests = [] := by
  have hres : ∃ msg, handleFormSubmit env form s = .validationError msg := by
    rcases h with h | ⟨h1, h2⟩
    · exact ⟨"Please fill in at least one field", by simp [handleFormSubmit, h]⟩
    · refine ⟨"Please enter a valid email address", ?_⟩
      have hall : ((jsTrim form.name).isEmpty && (jsTrim form.email).isEmpty &&
          (jsTrim form.avatar).isEmpty) = false := by
        simp [h1]
      simp [handleFormSubmit, hall, h1, h2]
  obtain ⟨msg, hmsg⟩ := hres
  exact ⟨⟨msg, hmsg⟩, by rw [hmsg]; rfl⟩

/-- The spec's second C2 test input: `{email: "not-an-email"}`. -/
def formBadEmail : ProfileFormData := { name := "", email := "not-an-email", avatar := "" }

theorem claim_C2_witness :
    (∃ msg, handleFormSubmit envBase formBadEmail s0 = .validationError msg) ∧
    (handleFormSubmit envBase formBadEmail s0).requests = [] :=
  claim_C2_client_validation envBase formBadEmail s0 (Or.inr ⟨by decide, by decide⟩)

/-- C3: when `authenticate()` reaches an OK verify response with
`{success: true}`, it sets `isAuthenticated := true` and invokes
`fetchUserData` exactly once (exactly one `GET /a/profile` request); if that
fetch fails, `isAuthenticated` remains `true` and `userData` is left `null`. -/
lemma beq_nonce_profileGet : (Request.nonce == Request.profileGet) = false := rfl

lemma beq_verify_profileGet (m sig : String) :
    (Request.verify m sig == Request.profileGet) = false := rfl

lemma beq_profileGet_self : (Request.profileGet == Request.profileGet) = true := rfl

theorem claim_C3_authenticate_success (env : Env) (s : SessionState)
    (addr nonce sig : String)
    (haddr : env.address = some addr)
    (hnonce : getNonce env = .ok nonce)
    (hsign : env.signRes = .ok sig)
    (hverify : env.verifyRes = .ok ⟨true, .ok ⟨true⟩⟩) :
    (authenticate env s).state.isAuthenticated = true ∧
    (authenticate env s).requests.count Request.profileGet = 1 ∧
    (profileFetchFails env → (authenticate env s).state.userData = none) := by
  have hreq := fetchUserData_requests env
    { s with isLoading := true, error := none, isAuthenticated := true }
  have hia := fetchUserData_isAuthenticated env
    { s with isLoading := true, error := none, isAuthenticated := true }
  refine ⟨?_, ?_, ?_⟩
  · simp [authenticate, haddr, hnonce, hsign, hverify, hia]
  · simp [authenticate, haddr, hnonce, hsign, hverify, hreq, List.count_cons,
        beq_nonce_profileGet, beq_verify_profileGet, beq_profileGet_self]
  · intro hf
    have hud := fetchUserData_userData_of_fails env
      { s with isLoading := true, error := none, isAuthenticated := true } hf
    simp [authenticate, haddr, hnonce, hsign, hverify, hud]

theorem claim_C3_witness :
    (authenticate envProfileGetFails s0).state.isAuthenticated = true ∧
    (authenticate envProfileGetFails s0).requests.count Request.profileGet = 1 ∧
    (profileFetchFails envProfileGetFails →
      (authenticate envProfileGetFails s0).state.userData = none) :=
  claim_C3_authenticate_success envProfileGetFails s0 "0xabc" "nonce123" "0xsig"
    rfl rfl rfl rfl

/-- C4: for every failure of a step of `authenticate()` after the
precondition check — nonce fetch fails, wallet rejects signing, verify
returns non-2xx, or verify returns `{success: false}` — a session that was
unauthenticated ends the call still unauthenticated, with a non-null `error`
message and `isLoading` cleared. -/
theorem claim_C4_authenticate_failure (env : Env) (s : SessionState) (addr : String)
    (haddr : env.address = some addr)
    (hstart : s.isAuthenticated = false)
    (hfail : (∃ e, getNonce env = .error e) ∨
             (∃ e, env.signRes = .error e) ∨
             (∃ r, env.verifyRes = .ok r ∧ r.ok = false) ∨
             (∃ r, env.verifyRes = .ok r ∧ r.ok = true ∧ r.body = .ok ⟨false⟩)) :
    (authenticate env s).state.isAuthenticated = false ∧
    (authenticate env s).state.error ≠ none ∧
    (authenticate env s).state.isLoading = false := by
  rcases hn : getNonce env with e | nonce
  · simp [authenticate, haddr, hn, hstart]
  · rcases hsg : env.signRes with e | sig
    · simp [authenticate, haddr, hn, hsg, hstart]
    · rcases hv : env.verifyRes with e | r
      · simp [authenticate, haddr, hn, hsg, hv, hstart]
      · rcases hok : r.ok
        · simp [authenticate, haddr, hn, hsg, hv, hok, hstart]
        · rcases hb : r.body with e | vr
          · simp [authenticate, haddr, hn, hsg, hv, hok, hb, hstart]
          · rcases hsuc : vr.success
            · simp [authenticate, haddr, hn, hsg, hv, hok, hb, hsuc, hstart]
            · exfalso
              rcases hfail with ⟨e, he⟩ | ⟨e, he⟩ | ⟨r2, hr2, hok2⟩ | ⟨r2, hr2, _, hb2⟩ <;>
                simp_all

/-- Oracle whose nonce fetch rejects. -/
def envNonceFails : Env := { envBase with nonceRes := .error "Failed to fetch" }

theorem claim_C4_witness :
    (authenticate envNonceFails s0).state.isAuthenticated = false ∧
    (authenticate envNonceFails s0).state.error ≠ none ∧
    (authenticate envNonceFails s0).state.isLoading = false :=
  claim_C4_authenticate_failure envNonceFails s0 "0xabc" rfl rfl
    (Or.inl ⟨"Failed to fetch", rfl⟩)
